import Mathlib

/-!
# Verification of the GasDetect sensor-processing core (src/src/main.cpp)

A shallow embedding of the sensor-processing and alert state machine of the
gas-leak detector firmware: the circular sample buffer (`addGasReading`,
`calculateMedian`), the calibration session (`calibrationStep`,
`finishCalibration`, `calculateCalibrationAverage`), the threshold/alert
state machine of `loop` (`thresholdTick`), and the LED/buzzer indicator
state machine (`updateLedStatus`).

Modelling conventions:
* `millis()` timestamps are unbounded naturals.  The firmware relies on
  monotonically increasing 32-bit tick counts; the 49.7-day wraparound is
  outside the scope of the properties verified here, so timestamps are
  plain `ℕ` and the C `unsigned long` subtractions become truncated `ℕ`
  subtraction (they agree whenever the subtrahend is in the past, which is
  the situation in every property below).
* `float` sensor readings are modelled as `ℚ`.  The arithmetic performed
  by the firmware on readings (shift, compare, sum, divide by a count,
  halve) is exact on the values appearing in the properties.
* The C sentinel convention is kept as in the source: timestamp `0` means
  "unset", `baseGasValue = -1` means "uncalibrated".
* I/O (telnet/serial printing, MQTT publishing, HTTP notification posts)
  is modelled by the returned `Option Notif` of a tick: `some .alert` /
  `some .cleared` records that `sendNotification(true/false)` was called.
-/

namespace GasDetect

/-- `#define BUFFER_SIZE 15` (main.cpp line 171). -/
def BUFFER_SIZE : ℕ := 15

/-- `const int numCalibrationReadings = 300` (main.cpp line 182). -/
def numCalibrationReadings : ℕ := 300

/-- The literal `30000` ms notification cooldown used at main.cpp line 1517. -/
def notificationCooldownMs : ℕ := 30000

/-- `const unsigned long greenBlinkInterval = 5000` (main.cpp line 150). -/
def greenBlinkInterval : ℕ := 5000

/-- `const unsigned long blueBlinkInterval = 5000` (main.cpp line 151). -/
def blueBlinkInterval : ℕ := 5000

/-- `const unsigned long redBlinkInterval = 1000` (main.cpp line 152). -/
def redBlinkInterval : ℕ := 1000

/-- `const unsigned long onDuration = 100` (main.cpp line 153). -/
def onDuration : ℕ := 100

/-- The fields of `struct Config` read by the sensor-processing core:
`thresholdLimit` (ppm), `thresholdDuration` (seconds, used by the code as a
nonnegative duration via the cast `(unsigned long)config.thresholdDuration`),
and `baseGasValue` (`-1` = not calibrated). -/
structure Config where
  thresholdLimit : ℤ
  thresholdDuration : ℕ
  baseGasValue : ℤ
deriving DecidableEq

/-- `addGasReading` (main.cpp lines 289-302): shift the buffer contents one
slot to the left (dropping the oldest element at index 0) and store the new
reading in the last slot. On a list this is `tail` followed by appending. -/
def addGasReading (buf : List ℚ) (gasReading : ℚ) : List ℚ :=
  buf.tail ++ [gasReading]

/-- `calculateMedian` (main.cpp lines 304-318): copy the data, sort it
ascending, and return the middle element (odd size) or the mean of the two
middle elements (even size).  Out-of-range accesses cannot occur in the
firmware (the size is always `BUFFER_SIZE = 15`); `getD` with default `0`
keeps the Lean function total. -/
def calculateMedian (data : List ℚ) : ℚ :=
  let temp := data.mergeSort (fun a b => a ≤ b)
  let mid := data.length / 2
  if data.length % 2 == 0 then (temp.getD (mid - 1) 0 + temp.getD mid 0) / 2
  else temp.getD mid 0

/-- The two kinds of push notification sent by `sendNotification`:
`sendNotification(true)` = gas alert, `sendNotification(false)` = cleared. -/
inductive Notif where
  | alert
  | cleared
deriving DecidableEq

/-- The threshold-breach tracking state of `loop`:
`breachStart`, `underThresholdStart`, `lastNotificationTime` (main.cpp
lines 124-126, `0` = unset) and `alertState` (line 161). -/
structure ThState where
  breachStart : ℕ
  underThresholdStart : ℕ
  lastNotificationTime : ℕ
  alertState : Bool
deriving DecidableEq

/-- The threshold-breach check of `loop` (main.cpp lines 1507-1537), run
once per second on the baseline-adjusted reading.  Returns the new state
and the notification sent during this tick, if any. -/
def thresholdTick (cfg : Config) (now : ℕ) (gasReading : ℚ) (s : ThState) :
    ThState × Option Notif :=
  if gasReading > (cfg.thresholdLimit : ℚ) then
    -- reset under-threshold tracking
    let s1 := { s with underThresholdStart := 0 }
    -- mark start of breach
    let s2 := if s1.breachStart = 0 then { s1 with breachStart := now } else s1
    -- if breach persists long enough, alert and rate-limited notification
    if now - s2.breachStart ≥ cfg.thresholdDuration * 1000 then
      let s3 := { s2 with alertState := true }
      if s3.lastNotificationTime = 0 ∨
          now - s3.lastNotificationTime ≥ notificationCooldownMs then
        ({ s3 with lastNotificationTime := now }, some Notif.alert)
      else (s3, none)
    else (s2, none)
  else
    -- reading back under threshold: start under-threshold timer
    let s1 := if s.underThresholdStart = 0
      then { s with underThresholdStart := now } else s
    -- if level stays below threshold long enough, reset state and notify
    if now - s1.underThresholdStart ≥ cfg.thresholdDuration * 1000 then
      if s1.breachStart ≠ 0 then
        ({ s1 with alertState := false, breachStart := 0,
                   underThresholdStart := 0, lastNotificationTime := 0 },
         some Notif.cleared)
      else
        ({ s1 with breachStart := 0, underThresholdStart := 0,
                   lastNotificationTime := 0 }, none)
    else (s1, none)

/-- Run `thresholdTick` over a list of `(now, adjusted reading)` pairs (the
1 Hz reading cadence of `loop`), collecting the timestamped notifications. -/
def runTicks (cfg : Config) (s : ThState) :
    List (ℕ × ℚ) → ThState × List (ℕ × Notif)
  | [] => (s, [])
  | (now, r) :: rest =>
      let step := thresholdTick cfg now r s
      let tail := runTicks cfg step.1 rest
      (tail.1, (step.2.map (fun n => (now, n))).toList ++ tail.2)

/-- The timestamps of the alert notifications in a notification log. -/
def alertTimes (out : List (ℕ × Notif)) : List ℕ :=
  (out.filter (fun p => p.2 = Notif.alert)).map Prod.fst

/-- The baseline adjustment of `loop` (main.cpp lines 1488-1492): subtract
`baseGasValue` when it is positive, clamping at zero; otherwise use the raw
reading unchanged. -/
def adjustReading (baseGasValue : ℤ) (rawGasReading : ℚ) : ℚ :=
  if baseGasValue > 0 then
    let gasReading := rawGasReading - (baseGasValue : ℚ)
    if gasReading < 0 then 0 else gasReading
  else rawGasReading

/-- The state touched by one normal-operation 1 Hz reading of `loop`:
the sample buffer and the threshold-breach state. -/
structure NormalState where
  buffer : List ℚ
  th : ThState
deriving DecidableEq

/-- One normal-operation 1 Hz reading of `loop` (main.cpp lines 1481-1538):
adjust the raw reading by the baseline, feed the adjusted value into the
sample buffer, and run the threshold-breach check on the same value. -/
def normalTick (cfg : Config) (now : ℕ) (rawGasReading : ℚ) (s : NormalState) :
    NormalState × Option Notif :=
  let gasReading := adjustReading cfg.baseGasValue rawGasReading
  let buffer := addGasReading s.buffer gasReading
  let step := thresholdTick cfg now gasReading s.th
  (⟨buffer, step.1⟩, step.2)

/-- Run `normalTick` over a list of `(now, raw reading)` pairs. -/
def runNormal (cfg : Config) (s : NormalState) :
    List (ℕ × ℚ) → NormalState × List (ℕ × Notif)
  | [] => (s, [])
  | (now, r) :: rest =>
      let step := normalTick cfg now r s
      let tail := runNormal cfg step.1 rest
      (tail.1, (step.2.map (fun n => (now, n))).toList ++ tail.2)

/-- Initial values of the breach-tracking globals (main.cpp lines 124-126,
161): all timers unset, no alert. -/
def initialThState : ThState := ⟨0, 0, 0, false⟩

/-- `float gasDataBuffer[BUFFER_SIZE] = {0}` (main.cpp line 172). -/
def initialBuffer : List ℚ := List.replicate BUFFER_SIZE 0

/-- Initial normal-operation state. -/
def initialNormal : NormalState := ⟨initialBuffer, initialThState⟩

/-- 1 Hz tick times: `n` ticks starting at `t0`, 1000 ms apart, paired with
a constant raw reading `r`. -/
def ticksAt (t0 n : ℕ) (r : ℚ) : List (ℕ × ℚ) :=
  (List.range n).map (fun i => (t0 + 1000 * i, r))

/-- `calculateCalibrationAverage` (main.cpp lines 431-439): `-1` when no
readings were collected, otherwise the arithmetic mean of the collected
readings. -/
def calculateCalibrationAverage (calibrationReadings : List ℚ) : ℚ :=
  if calibrationReadings.length = 0 then -1
  else calibrationReadings.sum / (calibrationReadings.length : ℚ)

/-- The C conversion `(int)x` applied to a `float`: truncation toward zero
(used at main.cpp line 1463 on the calibration average). -/
def floatToInt (q : ℚ) : ℤ :=
  if 0 ≤ q then ⌊q⌋ else ⌈q⌉

/-- The calibration-session state of `loop`: the collected median readings
(`calibrationReadings` array together with `calibrationReadingCount`, which
is the length of the list), the shared sample buffer, the `running` flag and
the `config.baseGasValue` field written on completion. -/
structure CalSession where
  calibrationReadings : List ℚ
  buffer : List ℚ
  calibrationRunning : Bool
  baseGasValue : ℤ
deriving DecidableEq

/-- One collecting step of the calibration session (main.cpp lines
1440-1459, executed while `elapsed ≤ calibrationDuration` at the 1 Hz
reading cadence): compute the median of the current buffer, append it to
the collected readings only when the count is below
`numCalibrationReadings` and the median is positive (otherwise the sample
is dropped), then feed the raw reading into the sample buffer. -/
def calibrationStep (rawGasReading : ℚ) (s : CalSession) : CalSession :=
  let medianValue := calculateMedian s.buffer
  let s1 :=
    if s.calibrationReadings.length < numCalibrationReadings ∧ medianValue > 0
    then { s with calibrationReadings := s.calibrationReadings ++ [medianValue] }
    else s
  { s1 with buffer := addGasReading s1.buffer rawGasReading }

/-- The calibration-complete branch of `loop` (main.cpp lines 1461-1474,
taken when `currentTime - calibrationStartTime > calibrationDuration`):
store the truncated calibration average in `config.baseGasValue`, stop the
session, and reset the sample buffer to all zeroes. -/
def finishCalibration (s : CalSession) : CalSession :=
  { s with
    baseGasValue := floatToInt (calculateCalibrationAverage s.calibrationReadings),
    calibrationRunning := false,
    buffer := List.replicate BUFFER_SIZE 0 }

/-- Modelled from the spec's words (for comparison with the source's
`finishCalibration` in claim C4): "`baseline = round(mean(collectedReadings))`
(or -1 if zero samples collected)". -/
def roundSpecBaseline (calibrationReadings : List ℚ) : ℤ :=
  if calibrationReadings.length = 0 then -1
  else round (calibrationReadings.sum / (calibrationReadings.length : ℚ))

/-- `enum LedState` (main.cpp lines 138-144). -/
inductive LedState where
  | startup
  | wifiOnly
  | mqttActive
  | ledAlert
  | wifiDisconnected
deriving DecidableEq

/-- The inputs read by `updateLedStatus`: `millis()`, `WiFi.status()`,
`mqttClient.connected()` and `config.mqttEnabled`. -/
structure LedEnv where
  currentTime : ℕ
  wifiConnected : Bool
  mqttConnected : Bool
  mqttEnabled : Bool
deriving DecidableEq

/-- The state read and written by `updateLedStatus` (main.cpp lines
146-165): the LED mode machine, the blink bookkeeping, the buzzer timer
fields and the physical pin levels (`ledColor` is the last `setLedColor`
argument triple `(r, g, b)`). -/
structure LedSys where
  currentLedState : LedState
  priorLedState : LedState
  ledOn : Bool
  lastLedToggle : ℕ
  ledBlinkInterval : ℕ
  currentLedInterval : ℕ
  buzzerActive : Bool
  buzzerStartTime : ℕ
  buzzerDuration : ℕ
  lastWifiBeepTime : ℕ
  ledColor : Bool × Bool × Bool
deriving DecidableEq

/-- First section of `updateLedStatus` (main.cpp lines 989-1012): while
`buzzerActive`, enter alert mode (saving the prior mode and switching to
the fast red blink); when the buzzer stops while in alert mode, restore
the prior mode and its blink interval. -/
def ledAlertSection (currentTime : ℕ) (s0 : LedSys) : LedSys :=
  if s0.buzzerActive then
    if s0.currentLedState ≠ LedState.ledAlert then
      { s0 with priorLedState := s0.currentLedState,
                currentLedState := LedState.ledAlert,
                ledBlinkInterval := redBlinkInterval,
                currentLedInterval := redBlinkInterval,
                lastLedToggle := currentTime,
                ledOn := true,
                ledColor := (true, false, false) }
    else s0
  else if s0.currentLedState = LedState.ledAlert then
    let t := { s0 with currentLedState := s0.priorLedState,
                       ledOn := true, lastLedToggle := currentTime }
    if t.currentLedState = LedState.wifiOnly then
      { t with currentLedInterval := greenBlinkInterval,
               ledBlinkInterval := onDuration }
    else if t.currentLedState = LedState.mqttActive then
      { t with currentLedInterval := blueBlinkInterval,
               ledBlinkInterval := onDuration }
    else t
  else s0

/-- Second section of `updateLedStatus` (main.cpp lines 1015-1053): when
not in alert, derive the mode from the connectivity state; while WiFi is
down, also schedule the once-per-minute short disconnect beep. -/
def ledConnectivitySection (env : LedEnv) (s1 : LedSys) : LedSys :=
  if ¬s1.buzzerActive then
    if env.wifiConnected = false then
      let u :=
        if s1.currentLedState ≠ LedState.wifiDisconnected then
          { s1 with currentLedState := LedState.wifiDisconnected,
                    ledOn := true, ledColor := (true, false, false) }
        else s1
      if env.currentTime - u.lastWifiBeepTime ≥ 60000 then
        { u with lastWifiBeepTime := env.currentTime,
                 buzzerStartTime := env.currentTime,
                 buzzerDuration := 100,
                 buzzerActive := true }
      else u
    else if env.wifiConnected ∧ env.mqttConnected ∧ env.mqttEnabled then
      if s1.currentLedState ≠ LedState.mqttActive then
        { s1 with currentLedState := LedState.mqttActive,
                  currentLedInterval := blueBlinkInterval,
                  ledBlinkInterval := onDuration,
                  lastLedToggle := env.currentTime,
                  ledOn := true, ledColor := (false, false, true) }
      else s1
    else if env.wifiConnected then
      if s1.currentLedState ≠ LedState.wifiOnly then
        { s1 with currentLedState := LedState.wifiOnly,
                  currentLedInterval := greenBlinkInterval,
                  ledBlinkInterval := onDuration,
                  lastLedToggle := env.currentTime,
                  ledOn := true, ledColor := (false, true, false) }
      else s1
    else s1
  else s1

/-- Third section of `updateLedStatus` (main.cpp lines 1056-1104): advance
the blink phase of the current mode when its interval has elapsed. -/
def ledBlinkSection (currentTime : ℕ) (s2 : LedSys) : LedSys :=
  if currentTime - s2.lastLedToggle ≥ s2.ledBlinkInterval then
    let s3 := { s2 with lastLedToggle := currentTime }
    match s3.currentLedState with
    | LedState.startup =>
        let b := !s3.ledOn
        { s3 with ledOn := b, ledColor := (b, false, false) }
    | LedState.wifiDisconnected => s3
    | LedState.wifiOnly =>
        if s3.ledOn then
          { s3 with ledOn := false, ledColor := (false, false, false),
                    ledBlinkInterval := greenBlinkInterval - onDuration }
        else
          { s3 with ledOn := true, ledColor := (false, true, false),
                    ledBlinkInterval := onDuration }
    | LedState.mqttActive =>
        if s3.ledOn then
          { s3 with ledOn := false, ledColor := (false, false, false),
                    ledBlinkInterval := blueBlinkInterval - onDuration }
        else
          { s3 with ledOn := true, ledColor := (false, false, true),
                    ledBlinkInterval := onDuration }
    | LedState.ledAlert =>
        let b := !s3.ledOn
        { s3 with ledOn := b, ledColor := (b, false, false) }
  else s2

/-- `updateLedStatus` (main.cpp lines 986-1105): the three sections run in
order on the same `millis()` snapshot. -/
def updateLedStatus (env : LedEnv) (s0 : LedSys) : LedSys :=
  ledBlinkSection env.currentTime
    (ledConnectivitySection env (ledAlertSection env.currentTime s0))

/-! ## Helper lemmas -/

/-- Folding `addGasReading` over a list of inserted values drops as many
elements from the front of the combined sequence as were inserted. -/
theorem addGasReading_foldl_eq_drop (vs : List ℚ) :
    ∀ b : List ℚ, b ≠ [] →
      vs.foldl addGasReading b = (b ++ vs).drop vs.length := by
  induction vs with
  | nil => intro b _; simp
  | cons v vs ih =>
      intro b hb
      obtain ⟨h, t, rfl⟩ : ∃ h t, b = h :: t := by
        cases b with
        | nil => exact absurd rfl hb
        | cons h t => exact ⟨h, t, rfl⟩
      have step : addGasReading (h :: t) v = t ++ [v] := rfl
      calc ((v :: vs).foldl addGasReading (h :: t) : List ℚ)
          = vs.foldl addGasReading (t ++ [v]) := by
            simp [List.foldl_cons, step]
        _ = ((t ++ [v]) ++ vs).drop vs.length := by
            exact ih (t ++ [v]) (by simp)
        _ = ((h :: t) ++ (v :: vs)).drop (v :: vs).length := by
            simp [List.append_assoc]

/-- Sorting with `mergeSort` produces the unique sorted permutation: any
sorted list with the same elements is the result of the sort. -/
theorem mergeSort_eq_of_sorted_perm (l s : List ℚ) (hp : s.Perm l)
    (hs : s.Sorted (· ≤ ·)) : l.mergeSort (fun a b => a ≤ b) = s :=
  List.eq_of_perm_of_sorted ((List.mergeSort_perm l _).trans hp.symm)
    (List.sorted_mergeSort' l) hs

/-- The alert section never touches the buzzer flag. -/
theorem ledAlertSection_buzzerActive (now : ℕ) (s : LedSys) :
    (ledAlertSection now s).buzzerActive = s.buzzerActive := by
  simp only [ledAlertSection]
  split_ifs <;> rfl

/-- The connectivity section is skipped entirely while the buzzer is
active. -/
theorem ledConnectivitySection_of_buzzer (env : LedEnv) (s : LedSys)
    (h : s.buzzerActive = true) : ledConnectivitySection env s = s := by
  simp [ledConnectivitySection, h]

/-- The blink section never changes the mode. -/
theorem ledBlinkSection_currentLedState (now : ℕ) (s : LedSys) :
    (ledBlinkSection now s).currentLedState = s.currentLedState := by
  cases hc : s.currentLedState <;>
    simp [ledBlinkSection, hc] <;>
    split_ifs <;> simp [hc]

/-- The blink section never changes the saved prior mode. -/
theorem ledBlinkSection_priorLedState (now : ℕ) (s : LedSys) :
    (ledBlinkSection now s).priorLedState = s.priorLedState := by
  cases hc : s.currentLedState <;>
    simp [ledBlinkSection, hc] <;>
    split_ifs <;> simp [hc]

/-- In alert mode the blink section only toggles the red LED and keeps the
blink interval. -/
theorem ledBlinkSection_ledAlert_interval (now : ℕ) (s : LedSys)
    (h : s.currentLedState = LedState.ledAlert) :
    (ledBlinkSection now s).ledBlinkInterval = s.ledBlinkInterval := by
  simp [ledBlinkSection, h] <;> split_ifs <;> simp [h]

/-- Before the interval elapses the blink section does nothing. -/
theorem ledBlinkSection_no_toggle (now : ℕ) (s : LedSys)
    (h : ¬ now - s.lastLedToggle ≥ s.ledBlinkInterval) :
    ledBlinkSection now s = s := by
  simp [ledBlinkSection, h]

/-- On an above-threshold tick the threshold machine either fires an alert
notification — and then records the tick time in `lastNotificationTime`,
which was possible only when the cooldown had elapsed or no notification
had been sent — or sends nothing and keeps `lastNotificationTime`. -/
theorem thresholdTick_breach_cases (cfg : Config) (now : ℕ) (r : ℚ)
    (s : ThState) (hr : r > (cfg.thresholdLimit : ℚ)) :
    ((thresholdTick cfg now r s).2 = some Notif.alert ∧
      (thresholdTick cfg now r s).1.lastNotificationTime = now ∧
      (s.lastNotificationTime = 0 ∨
        now - s.lastNotificationTime ≥ notificationCooldownMs)) ∨
    ((thresholdTick cfg now r s).2 = none ∧
      (thresholdTick cfg now r s).1.lastNotificationTime =
        s.lastNotificationTime) := by
  simp only [thresholdTick, if_pos hr]
  by_cases hb : s.breachStart = 0 <;>
    simp only [hb, if_pos, if_neg, ite_true, ite_false, reduceIte] <;>
    split_ifs with h1 h2 <;>
    simp_all

/-! ## Claims -/

/-- C5: on every normal-operation 1 Hz tick the value fed into the sample
buffer and into the threshold state machine is the baseline-adjusted
reading, which equals `max 0 (raw - baseline)` when the baseline is
positive and the raw reading otherwise (baseline unset `-1`, or zero). -/
theorem adjusted_value_feeds_buffer_and_threshold
    (cfg : Config) (now : ℕ) (raw : ℚ) (s : NormalState) :
    adjustReading cfg.baseGasValue raw =
      (if cfg.baseGasValue > 0 then max 0 (raw - (cfg.baseGasValue : ℚ)) else raw) ∧
    (normalTick cfg now raw s).1.buffer =
      addGasReading s.buffer (adjustReading cfg.baseGasValue raw) ∧
    (normalTick cfg now raw s).1.th =
      (thresholdTick cfg now (adjustReading cfg.baseGasValue raw) s.th).1 ∧
    (normalTick cfg now raw s).2 =
      (thresholdTick cfg now (adjustReading cfg.baseGasValue raw) s.th).2 := by
  refine ⟨?_, rfl, rfl, rfl⟩
  by_cases hb : cfg.baseGasValue > 0
  · simp only [adjustReading, if_pos hb]
    split_ifs with h
    · exact (max_eq_left h.le).symm
    · exact (max_eq_right (not_lt.mp h)).symm
  · simp [adjustReading, hb]

/-- C7: inserting `BUFFER_SIZE + 1` distinct values into a buffer of
length `BUFFER_SIZE` leaves exactly the last `BUFFER_SIZE` inserted values
in insertion order; each insert drops the oldest element and appends at
the tail, and the length stays `BUFFER_SIZE`. -/
theorem addGasReading_fifo (b vs : List ℚ)
    (hb : b.length = BUFFER_SIZE) (hv : vs.length = BUFFER_SIZE + 1)
    (hd : vs.Nodup) :
    vs.foldl addGasReading b = vs.tail ∧
    (vs.foldl addGasReading b).length = BUFFER_SIZE ∧
    ∀ v : ℚ, addGasReading b v = b.tail ++ [v] := by
  have hbne : b ≠ [] := by
    intro h
    rw [h] at hb
    simp [BUFFER_SIZE] at hb
  have h1 : vs.foldl addGasReading b = (b ++ vs).drop vs.length :=
    addGasReading_foldl_eq_drop vs b hbne
  have h2 : (b ++ vs).drop vs.length = vs.tail := by
    have : vs.length = b.length + 1 := by rw [hv, hb]
    rw [this, List.drop_append, List.drop_one]
  refine ⟨h1.trans h2, ?_, fun v => rfl⟩
  rw [h1.trans h2, List.length_tail, hv]
  omega

/-- C4 counterexample: the spec claims the baseline stored at the end of a
calibration session is `round(mean(collectedReadings))`; with collected
readings `[1, 2]` the code stores `(int)1.5 = 1` while the rounded mean is
`2`. -/
theorem calibration_round_counterexample :
    (finishCalibration ⟨[1, 2], List.replicate BUFFER_SIZE 0, true, -1⟩).baseGasValue ≠
      roundSpecBaseline [1, 2] ∧
    (finishCalibration ⟨[1, 2], List.replicate BUFFER_SIZE 0, true, -1⟩).baseGasValue = 1 ∧
    roundSpecBaseline [1, 2] = 2 := by
  have h1 : (finishCalibration ⟨[1, 2], List.replicate BUFFER_SIZE 0, true, -1⟩).baseGasValue = 1 := by
    show floatToInt (calculateCalibrationAverage [1, 2]) = 1
    have : calculateCalibrationAverage [1, 2] = 3 / 2 := by
      norm_num [calculateCalibrationAverage]
    rw [floatToInt, this]
    norm_num [Int.floor_eq_iff]
  have h2 : roundSpecBaseline [1, 2] = 2 := by
    have : ((1 : ℚ) + 2) / 2 = 3 / 2 := by norm_num
    rw [roundSpecBaseline]
    norm_num [round_eq, Int.floor_eq_iff]
  exact ⟨by rw [h1, h2]; decide, h1, h2⟩

/-- C4 (amended): when a calibration session ends the code stores the
calibration average converted with C `(int)` truncation toward zero (for
the nonnegative sensor averages this is the floor of the mean, not the
rounded mean), or `-1` when no samples were collected; the sample buffer
is reset to all zeroes and the session is marked not running in the same
step. -/
theorem finishCalibration_spec (s : CalSession) :
    (finishCalibration s).calibrationRunning = false ∧
    (finishCalibration s).buffer = List.replicate BUFFER_SIZE 0 ∧
    (finishCalibration s).baseGasValue =
      floatToInt (calculateCalibrationAverage s.calibrationReadings) ∧
    (s.calibrationReadings = [] → (finishCalibration s).baseGasValue = -1) ∧
    (s.calibrationReadings ≠ [] → (∀ r ∈ s.calibrationReadings, 0 ≤ r) →
      (finishCalibration s).baseGasValue =
        ⌊s.calibrationReadings.sum / (s.calibrationReadings.length : ℚ)⌋) := by
  refine ⟨rfl, rfl, rfl, ?_, ?_⟩
  · intro h
    show floatToInt (calculateCalibrationAverage s.calibrationReadings) = -1
    rw [h, calculateCalibrationAverage]
    rw [if_pos (by simp), floatToInt, if_neg (by norm_num)]
    have hcast : ((-1 : ℚ)) = ((-1 : ℤ) : ℚ) := by norm_num
    rw [hcast, Int.ceil_intCast]
  · intro hne hnn
    show floatToInt (calculateCalibrationAverage s.calibrationReadings) = _
    have hlen : s.calibrationReadings.length ≠ 0 := by
      simpa [List.length_eq_zero] using hne
    have hsum : 0 ≤ s.calibrationReadings.sum := List.sum_nonneg hnn
    have havg : 0 ≤ s.calibrationReadings.sum / (s.calibrationReadings.length : ℚ) := by
      apply div_nonneg hsum
      positivity
    rw [calculateCalibrationAverage, if_neg hlen, floatToInt, if_pos havg]

/-- C4 amended witness: with collected readings `[1, 2]` the stored
baseline is the floor of the mean, namely `1`. -/
theorem finishCalibration_spec_witness :
    ([1, (2 : ℚ)] ≠ []) ∧ (∀ r ∈ [1, (2 : ℚ)], 0 ≤ r) ∧
    (finishCalibration ⟨[1, 2], List.replicate BUFFER_SIZE 0, true, -1⟩).baseGasValue =
      ⌊([1, (2 : ℚ)].sum / (([1, (2 : ℚ)].length : ℕ) : ℚ))⌋ :=
  ⟨by simp, by norm_num,
    (finishCalibration_spec ⟨[1, 2], List.replicate BUFFER_SIZE 0, true, -1⟩).2.2.2.2
      (by simp) (by norm_num)⟩

/-- C3: on a 1 Hz tick with the reading at or below the threshold and the
under-threshold timer running for at least `thresholdDuration` seconds,
the cleared notification fires and the alert flag is cleared exactly when
`breachStart` was set; `breachStart`, `underThresholdStart` and
`lastNotificationTime` are reset to unset unconditionally, and no cleared
notification fires when no breach had started. -/
theorem cleared_notification_iff_breach (cfg : Config) (now : ℕ) (r : ℚ)
    (s : ThState) (hr : ¬ r > (cfg.thresholdLimit : ℚ))
    (hu : s.underThresholdStart ≠ 0)
    (he : now - s.underThresholdStart ≥ cfg.thresholdDuration * 1000) :
    (thresholdTick cfg now r s).1.breachStart = 0 ∧
    (thresholdTick cfg now r s).1.underThresholdStart = 0 ∧
    (thresholdTick cfg now r s).1.lastNotificationTime = 0 ∧
    ((thresholdTick cfg now r s).2 = some Notif.cleared ↔ s.breachStart ≠ 0) ∧
    (s.breachStart ≠ 0 → (thresholdTick cfg now r s).1.alertState = false) ∧
    (s.breachStart = 0 →
      (thresholdTick cfg now r s).1.alertState = s.alertState ∧
      (thresholdTick cfg now r s).2 = none) := by
  by_cases hb : s.breachStart = 0 <;>
    simp [thresholdTick, hr, hu, he, hb]

/-- C3 witness: ten seconds under threshold with a set `breachStart` sends
the cleared notification, clears the alert and resets all three timers. -/
theorem cleared_notification_iff_breach_witness :
    (¬ (10 : ℚ) > ((50 : ℤ) : ℚ)) ∧ ((64000 : ℕ) ≠ 0) ∧
    (70000 - 64000 ≥ 5 * 1000) ∧
    ((thresholdTick ⟨50, 5, -1⟩ 70000 10 ⟨61000, 64000, 61000, true⟩).1.breachStart = 0 ∧
     (thresholdTick ⟨50, 5, -1⟩ 70000 10 ⟨61000, 64000, 61000, true⟩).1.underThresholdStart = 0 ∧
     (thresholdTick ⟨50, 5, -1⟩ 70000 10 ⟨61000, 64000, 61000, true⟩).1.lastNotificationTime = 0 ∧
     ((thresholdTick ⟨50, 5, -1⟩ 70000 10 ⟨61000, 64000, 61000, true⟩).2 = some Notif.cleared ↔
        (61000 : ℕ) ≠ 0) ∧
     ((61000 : ℕ) ≠ 0 →
        (thresholdTick ⟨50, 5, -1⟩ 70000 10 ⟨61000, 64000, 61000, true⟩).1.alertState = false) ∧
     ((61000 : ℕ) = 0 →
        (thresholdTick ⟨50, 5, -1⟩ 70000 10 ⟨61000, 64000, 61000, true⟩).1.alertState = true ∧
        (thresholdTick ⟨50, 5, -1⟩ 70000 10 ⟨61000, 64000, 61000, true⟩).2 = none)) :=
  ⟨by norm_num, by decide, by decide,
    cleared_notification_iff_breach ⟨50, 5, -1⟩ 70000 10 ⟨61000, 64000, 61000, true⟩
      (by norm_num) (by decide) (by decide)⟩

/-- C10: a dip below the threshold shorter than `thresholdDuration`
seconds leaves `breachStart`, the alert flag and the notification
rate-limit state unchanged and sends nothing; an above-threshold tick
resets only `underThresholdStart`, keeps an already-set `breachStart`, and
when the time since the original `breachStart` already reaches the
configured duration the alert flag is set and (cooldown permitting) an
alert notification fires on that very tick. -/
theorem short_dip_preserves_breach (cfg : Config) (now : ℕ) (r : ℚ)
    (s : ThState) :
    (¬ r > (cfg.thresholdLimit : ℚ) →
      now - (if s.underThresholdStart = 0 then now else s.underThresholdStart) <
          cfg.thresholdDuration * 1000 →
      (thresholdTick cfg now r s).1.breachStart = s.breachStart ∧
      (thresholdTick cfg now r s).1.alertState = s.alertState ∧
      (thresholdTick cfg now r s).1.lastNotificationTime = s.lastNotificationTime ∧
      (thresholdTick cfg now r s).2 = none) ∧
    (r > (cfg.thresholdLimit : ℚ) →
      (thresholdTick cfg now r s).1.underThresholdStart = 0 ∧
      (s.breachStart ≠ 0 → (thresholdTick cfg now r s).1.breachStart = s.breachStart) ∧
      (s.breachStart ≠ 0 → now - s.breachStart ≥ cfg.thresholdDuration * 1000 →
        (thresholdTick cfg now r s).1.alertState = true ∧
        ((s.lastNotificationTime = 0 ∨
            now - s.lastNotificationTime ≥ notificationCooldownMs) →
          (thresholdTick cfg now r s).2 = some Notif.alert))) := by
  constructor
  · intro hr hshort
    by_cases hu : s.underThresholdStart = 0
    · rw [if_pos hu] at hshort
      have hd0 : cfg.thresholdDuration ≠ 0 := by
        intro h0
        rw [h0] at hshort
        omega
      simp [thresholdTick, hr, hu, hd0]
    · rw [if_neg hu] at hshort
      have hlt : ¬ cfg.thresholdDuration * 1000 ≤ now - s.underThresholdStart := by
        omega
      simp [thresholdTick, hr, hu, hlt]
  · intro hr
    refine ⟨?_, ?_, ?_⟩
    · by_cases hb : s.breachStart = 0 <;>
        by_cases hd : now - (if s.breachStart = 0 then now else s.breachStart) ≥
            cfg.thresholdDuration * 1000 <;>
        simp [thresholdTick, hr, hb] <;>
        split_ifs <;> simp_all
    · intro hb
      by_cases hd : now - s.breachStart ≥ cfg.thresholdDuration * 1000 <;>
        simp [thresholdTick, hr, hb, hd] <;> split_ifs <;> rfl
    · intro hb hd
      constructor
      · simp [thresholdTick, hr, hb, hd]
        split_ifs <;> rfl
      · intro hcool
        simp [thresholdTick, hr, hb, hd, hcool]

/-- C10 witness: after a 3-second dip (shorter than the 5-second debounce)
the state is untouched, and an above-threshold tick measured against the
original `breachStart` raises the alert and fires a notification at once. -/
theorem short_dip_preserves_breach_witness :
    ((thresholdTick ⟨50, 5, -1⟩ 69000 10 ⟨61000, 67000, 0, false⟩).1.breachStart = 61000 ∧
     (thresholdTick ⟨50, 5, -1⟩ 69000 10 ⟨61000, 67000, 0, false⟩).1.alertState = false ∧
     (thresholdTick ⟨50, 5, -1⟩ 69000 10 ⟨61000, 67000, 0, false⟩).1.lastNotificationTime = 0 ∧
     (thresholdTick ⟨50, 5, -1⟩ 69000 10 ⟨61000, 67000, 0, false⟩).2 = none) ∧
    ((thresholdTick ⟨50, 5, -1⟩ 70000 100 ⟨61000, 67000, 0, false⟩).1.underThresholdStart = 0 ∧
     (thresholdTick ⟨50, 5, -1⟩ 70000 100 ⟨61000, 67000, 0, false⟩).1.breachStart = 61000 ∧
     (thresholdTick ⟨50, 5, -1⟩ 70000 100 ⟨61000, 67000, 0, false⟩).1.alertState = true ∧
     (thresholdTick ⟨50, 5, -1⟩ 70000 100 ⟨61000, 67000, 0, false⟩).2 = some Notif.alert) := by
  have h1 := (short_dip_preserves_breach ⟨50, 5, -1⟩ 69000 10 ⟨61000, 67000, 0, false⟩).1
    (by norm_num) (by norm_num)
  have h2 := (short_dip_preserves_breach ⟨50, 5, -1⟩ 70000 100 ⟨61000, 67000, 0, false⟩).2
    (by norm_num)
  refine ⟨⟨h1.1, h1.2.1, h1.2.2.1, h1.2.2.2⟩,
    h2.1, h2.2.1 (by decide), (h2.2.2 (by decide) (by decide)).1,
    (h2.2.2 (by decide) (by decide)).2 (Or.inl rfl)⟩

/-- C9: during a calibration session the collected-readings count never
exceeds `numCalibrationReadings` (300): a buffer median is appended only
when it is positive and the count is still below the limit, a full array
silently drops further samples, and the raw reading still enters the
sample buffer. -/
theorem calibration_count_bounded (raw : ℚ) (s : CalSession)
    (h : s.calibrationReadings.length ≤ numCalibrationReadings) :
    (calibrationStep raw s).calibrationReadings.length ≤ numCalibrationReadings ∧
    ((calibrationStep raw s).calibrationReadings =
      if s.calibrationReadings.length < numCalibrationReadings ∧
          calculateMedian s.buffer > 0
      then s.calibrationReadings ++ [calculateMedian s.buffer]
      else s.calibrationReadings) ∧
    (s.calibrationReadings.length = numCalibrationReadings →
      (calibrationStep raw s).calibrationReadings = s.calibrationReadings) ∧
    (calibrationStep raw s).buffer = addGasReading s.buffer raw := by
  have hstep : (calibrationStep raw s).calibrationReadings =
      (if s.calibrationReadings.length < numCalibrationReadings ∧
          calculateMedian s.buffer > 0
       then s.calibrationReadings ++ [calculateMedian s.buffer]
       else s.calibrationReadings) := by
    by_cases hc : s.calibrationReadings.length < numCalibrationReadings ∧
        calculateMedian s.buffer > 0 <;>
      simp [calibrationStep, hc]
  have hbuf : (calibrationStep raw s).buffer = addGasReading s.buffer raw := by
    by_cases hc : s.calibrationReadings.length < numCalibrationReadings ∧
        calculateMedian s.buffer > 0 <;>
      simp [calibrationStep, hc]
  refine ⟨?_, hstep, ?_, hbuf⟩
  · rw [hstep]
    split_ifs with hc
    · simp only [List.length_append, List.length_singleton]
      omega
    · exact h
  · intro hfull
    rw [hstep, if_neg]
    intro hc
    exact absurd hc.1 (by omega)

/-- C9 witness: with an empty collection list the bound holds after a
collecting step. -/
theorem calibration_count_bounded_witness :
    (([] : List ℚ).length ≤ numCalibrationReadings) ∧
    (calibrationStep 2 ⟨[], List.replicate BUFFER_SIZE 1, true, -1⟩).calibrationReadings.length ≤
      numCalibrationReadings :=
  ⟨by decide,
    (calibration_count_bounded 2 ⟨[], List.replicate BUFFER_SIZE 1, true, -1⟩ (by decide)).1⟩

/-- C7 witness: inserting the sixteen distinct values `1..16` into the
all-zero buffer of length 15 leaves exactly `2..16`. -/
theorem addGasReading_fifo_witness :
    (List.replicate BUFFER_SIZE (0 : ℚ)).length = BUFFER_SIZE ∧
    ([1, 2, 3, 4, 5, 6, 7, 8, 9, 10, 11, 12, 13, 14, 15, 16] : List ℚ).length =
      BUFFER_SIZE + 1 ∧
    ([1, 2, 3, 4, 5, 6, 7, 8, 9, 10, 11, 12, 13, 14, 15, 16] : List ℚ).Nodup ∧
    ([1, 2, 3, 4, 5, 6, 7, 8, 9, 10, 11, 12, 13, 14, 15, 16] : List ℚ).foldl addGasReading
        (List.replicate BUFFER_SIZE 0) =
      ([1, 2, 3, 4, 5, 6, 7, 8, 9, 10, 11, 12, 13, 14, 15, 16] : List ℚ).tail :=
  ⟨rfl, rfl, by decide,
    (addGasReading_fifo (List.replicate BUFFER_SIZE 0)
      [1, 2, 3, 4, 5, 6, 7, 8, 9, 10, 11, 12, 13, 14, 15, 16]
      rfl rfl (by decide)).1⟩

/-- C6: `calculateMedian` is invariant under permutation of the buffer
contents, and for any ascending sorted arrangement `s` of the buffer it
returns the middle element of `s` for odd size and the mean of the two
middle elements for even size. -/
theorem calculateMedian_spec :
    (∀ l₁ l₂ : List ℚ, l₁.Perm l₂ → calculateMedian l₁ = calculateMedian l₂) ∧
    (∀ l s : List ℚ, s.Perm l → s.Sorted (· ≤ ·) →
      calculateMedian l =
        if l.length % 2 == 0
        then (s.getD (l.length / 2 - 1) 0 + s.getD (l.length / 2) 0) / 2
        else s.getD (l.length / 2) 0) := by
  have key : ∀ l s : List ℚ, s.Perm l → s.Sorted (· ≤ ·) →
      calculateMedian l =
        if l.length % 2 == 0
        then (s.getD (l.length / 2 - 1) 0 + s.getD (l.length / 2) 0) / 2
        else s.getD (l.length / 2) 0 := by
    intro l s hp hs
    simp only [calculateMedian]
    rw [mergeSort_eq_of_sorted_perm l s hp hs]
  refine ⟨?_, key⟩
  intro l₁ l₂ hp
  have hs1 : (l₁.mergeSort (fun a b => a ≤ b)).Sorted (· ≤ ·) :=
    List.sorted_mergeSort' l₁
  have hp1 : (l₁.mergeSort (fun a b => a ≤ b)).Perm l₁ :=
    List.mergeSort_perm l₁ _
  rw [key l₁ _ hp1 hs1, key l₂ _ (hp1.trans hp) hs1, hp.length_eq]

/-- C6 witness: the median of `[3, 1, 2]` equals the middle element `2` of
its sorted arrangement `[1, 2, 3]`, and permuting the buffer contents does
not change it. -/
theorem calculateMedian_spec_witness :
    (([1, 2, 3] : List ℚ).Perm [3, 1, 2] ∧ ([1, 2, 3] : List ℚ).Sorted (· ≤ ·)) ∧
    calculateMedian [3, 1, 2] = calculateMedian [2, 3, 1] ∧
    calculateMedian [3, 1, 2] = 2 :=
  ⟨⟨by decide, by decide⟩,
   calculateMedian_spec.1 [3, 1, 2] [2, 3, 1] (by decide),
   by
     have h := calculateMedian_spec.2 [3, 1, 2] [1, 2, 3] (by decide) (by decide)
     rw [h]
     decide⟩

/-- C1 counterexample: with `thresholdDurationSeconds = 10`, baseline 100
and constant raw readings 200 (adjusted 100, above the limit 50) at exactly
1 Hz, the 10th consecutive above-threshold tick has elapsed only 9000 ms
since `breachStart`, so `alertState` is still false — the claim requires it
to be true; likewise with duration 5 the 5th tick leaves `alertState`
false and no notification has fired. -/
theorem debounce_tick_counterexample :
    (runNormal ⟨50, 10, 100⟩ initialNormal (ticksAt 61000 10 200)).1.th.alertState = false ∧
    (runNormal ⟨50, 5, 100⟩ initialNormal (ticksAt 61000 5 200)).1.th.alertState = false ∧
    (runNormal ⟨50, 5, 100⟩ initialNormal (ticksAt 61000 5 200)).2 = [] := by
  norm_num [runNormal, normalTick, thresholdTick, adjustReading, addGasReading,
    ticksAt, List.range_succ, initialNormal, initialThState, initialBuffer,
    BUFFER_SIZE, notificationCooldownMs]

/-- C1 (amended): at exactly 1 Hz the alert raises on the tick whose
elapsed time since the first above-threshold tick reaches
`thresholdDuration * 1000` ms, i.e. on the `(d+1)`-th consecutive
above-threshold tick: with duration 10 neither 9 nor 10 ticks set
`alertState` but the 11th does, firing exactly one alert notification; with
duration 5 (baseline 100, limit 50, raw 200, adjusted 100) the 6th tick
sets `alertState` and fires exactly one alert notification. -/
theorem debounce_tick_amended :
    (runNormal ⟨50, 10, 100⟩ initialNormal (ticksAt 61000 9 200)).1.th.alertState = false ∧
    (runNormal ⟨50, 10, 100⟩ initialNormal (ticksAt 61000 10 200)).1.th.alertState = false ∧
    (runNormal ⟨50, 10, 100⟩ initialNormal (ticksAt 61000 11 200)).1.th.alertState = true ∧
    (runNormal ⟨50, 10, 100⟩ initialNormal (ticksAt 61000 11 200)).2 = [(71000, Notif.alert)] ∧
    (runNormal ⟨50, 5, 100⟩ initialNormal (ticksAt 61000 5 200)).1.th.alertState = false ∧
    (runNormal ⟨50, 5, 100⟩ initialNormal (ticksAt 61000 6 200)).1.th.alertState = true ∧
    (runNormal ⟨50, 5, 100⟩ initialNormal (ticksAt 61000 6 200)).2 = [(66000, Notif.alert)] := by
  norm_num [runNormal, normalTick, thresholdTick, adjustReading, addGasReading,
    ticksAt, List.range_succ, initialNormal, initialThState, initialBuffer,
    BUFFER_SIZE, notificationCooldownMs]

/-- C2: during a continuous breach (every reading above the threshold,
tick times strictly increasing and later than the recorded
`lastNotificationTime`), consecutive alert-notification times are at least
`notificationCooldownMs` (30000 ms) apart, and the first one is at least
`notificationCooldownMs` after an already-recorded notification time: after
a notification at time `t`, no further alert notification fires at any
tick with `now - t < 30000`. -/
theorem notification_cooldown (cfg : Config) (ticks : List (ℕ × ℚ)) :
    ∀ s : ThState,
      (∀ p ∈ ticks, p.2 > (cfg.thresholdLimit : ℚ)) →
      List.Pairwise (· < ·) (s.lastNotificationTime :: ticks.map Prod.fst) →
      (s.lastNotificationTime ≠ 0 →
        List.Chain' (fun a b => a + notificationCooldownMs ≤ b)
          (s.lastNotificationTime :: alertTimes (runTicks cfg s ticks).2)) ∧
      List.Chain' (fun a b => a + notificationCooldownMs ≤ b)
        (alertTimes (runTicks cfg s ticks).2) := by
  induction ticks with
  | nil =>
      intro s _ _
      simp [runTicks, alertTimes]
  | cons p rest ih =>
      obtain ⟨now, r⟩ := p
      intro s hab hchain
      have hr : r > (cfg.thresholdLimit : ℚ) := hab (now, r) (by simp)
      have hab' : ∀ q ∈ rest, q.2 > (cfg.thresholdLimit : ℚ) :=
        fun q hq => hab q (List.mem_cons_of_mem _ hq)
      rw [List.map_cons, List.pairwise_cons] at hchain
      obtain ⟨hL, hchain2⟩ := hchain
      have hLnow : s.lastNotificationTime < now := hL now (by simp)
      have hout : (runTicks cfg s ((now, r) :: rest)).2 =
          ((thresholdTick cfg now r s).2.map (fun n => (now, n))).toList ++
            (runTicks cfg (thresholdTick cfg now r s).1 rest).2 := rfl
      rcases thresholdTick_breach_cases cfg now r s hr with
        ⟨hfire, hlast, hcool⟩ | ⟨hnone, hlast⟩
      · -- a notification fires at `now`
        have ihr := ih (thresholdTick cfg now r s).1 hab'
          (by rw [hlast]; exact hchain2)
        have hnow0 : (thresholdTick cfg now r s).1.lastNotificationTime ≠ 0 := by
          rw [hlast]; omega
        have htail := ihr.1 hnow0
        rw [hlast] at htail
        have houtA : alertTimes (runTicks cfg s ((now, r) :: rest)).2 =
            now :: alertTimes (runTicks cfg (thresholdTick cfg now r s).1 rest).2 := by
          rw [hout, hfire]
          simp [alertTimes]
        constructor
        · intro hL0
          rw [houtA, List.chain'_cons]
          refine ⟨?_, htail⟩
          rcases hcool with h0 | hge
          · exact absurd h0 hL0
          · omega
        · rw [houtA]
          exact htail
      · -- cooldown not elapsed (or breach not yet long enough): nothing sent
        have hchain' : List.Pairwise (· < ·)
            ((thresholdTick cfg now r s).1.lastNotificationTime ::
              rest.map Prod.fst) := by
          rw [hlast, List.pairwise_cons]
          rw [List.pairwise_cons] at hchain2
          exact ⟨fun b hb => hL b (List.mem_cons_of_mem _ hb), hchain2.2⟩
        have ihr := ih (thresholdTick cfg now r s).1 hab' hchain'
        have houtA : alertTimes (runTicks cfg s ((now, r) :: rest)).2 =
            alertTimes (runTicks cfg (thresholdTick cfg now r s).1 rest).2 := by
          rw [hout, hnone]
          simp
        constructor
        · intro hL0
          rw [houtA]
          have := ihr.1 (by rw [hlast]; exact hL0)
          rw [hlast] at this
          exact this
        · rw [houtA]
          exact ihr.2

/-- C2 witness: with a notification recorded at 61000 ms and a continuous
breach sampled at 62000, 70000 and 90000 ms (all within 30000 ms of
61000), the cooldown chain holds — and indeed no further alert fires. -/
theorem notification_cooldown_witness :
    (∀ p ∈ ([(62000, 100), (70000, 100), (90000, 100)] : List (ℕ × ℚ)),
      p.2 > (((50 : ℤ) : ℚ))) ∧
    List.Pairwise (· < ·) [61000, 62000, 70000, 90000] ∧
    List.Chain' (fun a b => a + notificationCooldownMs ≤ b)
      (61000 :: alertTimes (runTicks ⟨50, 10, -1⟩ ⟨61000, 0, 61000, true⟩
        [(62000, 100), (70000, 100), (90000, 100)]).2) ∧
    alertTimes (runTicks ⟨50, 10, -1⟩ ⟨61000, 0, 61000, true⟩
      [(62000, 100), (70000, 100), (90000, 100)]).2 = [] :=
  ⟨by norm_num, by decide,
    (notification_cooldown ⟨50, 10, -1⟩ [(62000, 100), (70000, 100), (90000, 100)]
      ⟨61000, 0, 61000, true⟩ (by norm_num) (by norm_num)).1 (by decide),
    by decide⟩

/-- C8 counterexample: the claim that on alert clear the indicator reverts
to exactly the connectivity mode active before the alert fails when the
connectivity changed during the alert: with prior mode `WifiOnly` but WiFi
down at the clearing tick, the same `updateLedStatus` call moves the
indicator to `WifiDisconnected`, not to the saved prior mode. -/
theorem led_restore_counterexample :
    ((⟨LedState.ledAlert, LedState.wifiOnly, true, 99000, 1000, 1000, false,
        0, 0, 90000, (true, false, false)⟩ : LedSys).buzzerActive = false) ∧
    ((⟨LedState.ledAlert, LedState.wifiOnly, true, 99000, 1000, 1000, false,
        0, 0, 90000, (true, false, false)⟩ : LedSys).currentLedState =
      LedState.ledAlert) ∧
    ((⟨LedState.ledAlert, LedState.wifiOnly, true, 99000, 1000, 1000, false,
        0, 0, 90000, (true, false, false)⟩ : LedSys).priorLedState =
      LedState.wifiOnly) ∧
    (updateLedStatus ⟨100000, false, false, false⟩
        ⟨LedState.ledAlert, LedState.wifiOnly, true, 99000, 1000, 1000, false,
          0, 0, 90000, (true, false, false)⟩).currentLedState =
      LedState.wifiDisconnected ∧
    (updateLedStatus ⟨100000, false, false, false⟩
        ⟨LedState.ledAlert, LedState.wifiOnly, true, 99000, 1000, 1000, false,
          0, 0, 90000, (true, false, false)⟩).currentLedState ≠
      LedState.wifiOnly := by
  refine ⟨rfl, rfl, rfl, ?_, ?_⟩ <;> decide

/-- C8 (amended): while the buzzer-active flag that drives the indicator
is set, the indicator shows `Alert` (red fast blink) and not
`WifiDisconnected`; entering `Alert` saves the previously active mode and
sets the fast 1000 ms interval (an ongoing `Alert` keeps its interval);
when the flag clears, the indicator reverts to exactly the saved prior
connectivity mode and its blink interval provided the current connectivity
still corresponds to that mode — otherwise the connectivity-derived mode of
the same update takes over. -/
theorem led_indicator_amended (env : LedEnv) (s : LedSys) :
    (s.buzzerActive = true →
      (updateLedStatus env s).currentLedState = LedState.ledAlert ∧
      (s.currentLedState ≠ LedState.ledAlert →
        (updateLedStatus env s).priorLedState = s.currentLedState ∧
        (updateLedStatus env s).ledBlinkInterval = redBlinkInterval) ∧
      (s.currentLedState = LedState.ledAlert →
        (updateLedStatus env s).ledBlinkInterval = s.ledBlinkInterval)) ∧
    (s.buzzerActive = false → s.currentLedState = LedState.ledAlert →
      env.wifiConnected = true →
      (s.priorLedState = LedState.wifiOnly →
        (env.mqttConnected && env.mqttEnabled) = false →
        (updateLedStatus env s).currentLedState = LedState.wifiOnly ∧
        (updateLedStatus env s).currentLedInterval = greenBlinkInterval ∧
        (updateLedStatus env s).ledBlinkInterval = onDuration) ∧
      (s.priorLedState = LedState.mqttActive →
        (env.mqttConnected && env.mqttEnabled) = true →
        (updateLedStatus env s).currentLedState = LedState.mqttActive ∧
        (updateLedStatus env s).currentLedInterval = blueBlinkInterval ∧
        (updateLedStatus env s).ledBlinkInterval = onDuration)) := by
  constructor
  · intro hbz
    have hb1 : (ledAlertSection env.currentTime s).buzzerActive = true :=
      (ledAlertSection_buzzerActive env.currentTime s).trans hbz
    have h2 : ledConnectivitySection env (ledAlertSection env.currentTime s) =
        ledAlertSection env.currentTime s :=
      ledConnectivitySection_of_buzzer env _ hb1
    have hmode : (ledAlertSection env.currentTime s).currentLedState =
        LedState.ledAlert := by
      by_cases hcur : s.currentLedState = LedState.ledAlert <;>
        simp [ledAlertSection, hbz, hcur]
    refine ⟨?_, ?_, ?_⟩
    · rw [updateLedStatus, h2, ledBlinkSection_currentLedState]
      exact hmode
    · intro hcur
      have hs1 : ledAlertSection env.currentTime s =
          { s with priorLedState := s.currentLedState,
                   currentLedState := LedState.ledAlert,
                   ledBlinkInterval := redBlinkInterval,
                   currentLedInterval := redBlinkInterval,
                   lastLedToggle := env.currentTime,
                   ledOn := true,
                   ledColor := (true, false, false) } := by
        simp [ledAlertSection, hbz, hcur]
      constructor
      · rw [updateLedStatus, h2, ledBlinkSection_priorLedState, hs1]
      · rw [updateLedStatus, h2, ledBlinkSection_ledAlert_interval _ _ hmode, hs1]
    · intro hcur
      have hs1 : ledAlertSection env.currentTime s = s := by
        simp [ledAlertSection, hbz, hcur]
      rw [updateLedStatus, h2, hs1, ledBlinkSection_ledAlert_interval _ _ hcur]
  · intro hbz hcur hwifi
    have hwne : ¬ env.wifiConnected = false := by simp [hwifi]
    constructor
    · intro hprior hmq
      have hmq2 : env.mqttConnected = false ∨ env.mqttEnabled = false := by
        cases hc : env.mqttConnected
        · exact Or.inl rfl
        · cases he : env.mqttEnabled
          · exact Or.inr rfl
          · rw [hc, he] at hmq
            simp at hmq
      have hs1 : ledAlertSection env.currentTime s =
          { s with currentLedState := LedState.wifiOnly,
                   ledOn := true,
                   lastLedToggle := env.currentTime,
                   currentLedInterval := greenBlinkInterval,
                   ledBlinkInterval := onDuration } := by
        simp [ledAlertSection, hbz, hcur, hprior]
      have h2 : ledConnectivitySection env (ledAlertSection env.currentTime s) =
          ledAlertSection env.currentTime s := by
        rw [hs1]
        rcases hmq2 with h | h <;>
          simp [ledConnectivitySection, hbz, hwne, hwifi, h]
      have h3 : ledBlinkSection env.currentTime (ledAlertSection env.currentTime s) =
          ledAlertSection env.currentTime s := by
        apply ledBlinkSection_no_toggle
        rw [hs1]
        simp [onDuration]
      rw [updateLedStatus, h2, h3, hs1]
      exact ⟨rfl, rfl, rfl⟩
    · intro hprior hmq
      have hmqp : env.wifiConnected ∧ env.mqttConnected ∧ env.mqttEnabled := by
        rw [Bool.and_eq_true] at hmq
        exact ⟨hwifi, hmq.1, hmq.2⟩
      have hs1 : ledAlertSection env.currentTime s =
          { s with currentLedState := LedState.mqttActive,
                   ledOn := true,
                   lastLedToggle := env.currentTime,
                   currentLedInterval := blueBlinkInterval,
                   ledBlinkInterval := onDuration } := by
        simp [ledAlertSection, hbz, hcur, hprior]
      have h2 : ledConnectivitySection env (ledAlertSection env.currentTime s) =
          ledAlertSection env.currentTime s := by
        rw [hs1]
        simp [ledConnectivitySection, hbz, hwne, hmqp]
      have h3 : ledBlinkSection env.currentTime (ledAlertSection env.currentTime s) =
          ledAlertSection env.currentTime s := by
        apply ledBlinkSection_no_toggle
        rw [hs1]
        simp [onDuration]
      rw [updateLedStatus, h2, h3, hs1]
      exact ⟨rfl, rfl, rfl⟩

/-- C8 amended witness: a concrete alert entry from `WifiOnly` saves the
prior mode and switches to the fast red blink, and the matching clear tick
(WiFi still up, MQTT inactive) restores `WifiOnly` with the green blink
interval. -/
theorem led_indicator_amended_witness :
    ((updateLedStatus ⟨200000, true, false, false⟩
        ⟨LedState.wifiOnly, LedState.startup, true, 199000, 100, 5000, true,
          0, 0, 0, (false, true, false)⟩).currentLedState = LedState.ledAlert ∧
     (updateLedStatus ⟨200000, true, false, false⟩
        ⟨LedState.wifiOnly, LedState.startup, true, 199000, 100, 5000, true,
          0, 0, 0, (false, true, false)⟩).priorLedState = LedState.wifiOnly ∧
     (updateLedStatus ⟨200000, true, false, false⟩
        ⟨LedState.wifiOnly, LedState.startup, true, 199000, 100, 5000, true,
          0, 0, 0, (false, true, false)⟩).ledBlinkInterval = redBlinkInterval) ∧
    ((updateLedStatus ⟨230000, true, false, false⟩
        ⟨LedState.ledAlert, LedState.wifiOnly, true, 229000, 1000, 1000, false,
          0, 0, 0, (true, false, false)⟩).currentLedState = LedState.wifiOnly ∧
     (updateLedStatus ⟨230000, true, false, false⟩
        ⟨LedState.ledAlert, LedState.wifiOnly, true, 229000, 1000, 1000, false,
          0, 0, 0, (true, false, false)⟩).currentLedInterval = greenBlinkInterval ∧
     (updateLedStatus ⟨230000, true, false, false⟩
        ⟨LedState.ledAlert, LedState.wifiOnly, true, 229000, 1000, 1000, false,
          0, 0, 0, (true, false, false)⟩).ledBlinkInterval = onDuration) := by
  have h1 := (led_indicator_amended ⟨200000, true, false, false⟩
    ⟨LedState.wifiOnly, LedState.startup, true, 199000, 100, 5000, true,
      0, 0, 0, (false, true, false)⟩).1 rfl
  have h2 := ((led_indicator_amended ⟨230000, true, false, false⟩
    ⟨LedState.ledAlert, LedState.wifiOnly, true, 229000, 1000, 1000, false,
      0, 0, 0, (true, false, false)⟩).2 rfl rfl rfl).1 rfl rfl
  exact ⟨⟨h1.1, (h1.2.1 (by decide)).1, (h1.2.1 (by decide)).2⟩, h2⟩

end GasDetect
